import Mathlib

/-!
Verification of the file-status reconciliation and pipeline-advancement core
of the opencga_data_upload repository.  The canonical variant embedded here is
the four-stage version in resources/home/dnanexus (opencga_functions.py and
the __main__ block of opencga_upload_and_index.py).  External effects (the
OpenCGA platform, the upload CLI, job execution) are modelled as explicit
inputs; sys.exit(1) is modelled as Except.error 1; Python None/True/False
results are modelled as Option Bool.  Logging calls have no effect on control
flow or return values and are not modelled, except where a claim is about a
failure being logged.
-/

namespace OpencgaUpload

/-- One file record as returned by the platform query oc.files.search, with
the four nested status strings read by check_file_status
(internal.status, internal.variant.index.status,
internal.variant.annotationIndex.status, internal.variant.secondaryIndex
.status, each under the status_id key), plus path and sampleIds. -/
structure PlatformFile where
  fileStatus : String
  indexStatus : String
  annotationStatus : String
  secondaryIndexStatus : String
  path : String
  sampleIds : List String
  deriving Repr, DecidableEq

/-- Outcome of the oc.files.search call in check_file_status: either the list
of matching records, or a raised exception (transport or query failure). -/
inductive SearchResult where
  | ok (files : List PlatformFile)
  | err
  deriving Repr, DecidableEq

/-- The six values returned by check_file_status
(opencga_functions.py lines 98 to 181).  Each is initialised to Python None
and possibly assigned a value; Option models None versus an assigned value. -/
structure FileChecks where
  uploaded : Option Bool
  indexed : Option Bool
  annotated : Option Bool
  sample_index : Option Bool
  file_path : Option String
  sample_ids : Option (List String)
  deriving Repr, DecidableEq

/-- Python truthiness of an Option Bool: None and False are falsy.  The
coordinator branches with plain if statements on the returned flags. -/
def isTruthy : Option Bool → Bool
  | some b => b
  | none => false

/-- check_file_status (opencga_functions.py lines 86 to 181), as a function of
the platform search outcome for the given (study, file name) pair.
Zero matches set uploaded to False and leave the other five values at None.
Exactly one match reads the four status strings and compares each with
"READY" independently; path and sampleIds are extracted only when the
top-level file status is "READY".  More than one match, or a raised search
exception, runs sys.exit(1).  The check_attributes block only emits log
messages and does not change any returned value, so it is not modelled. -/
def check_file_status (search : SearchResult) : Except Nat FileChecks :=
  match search with
  | .err => .error 1
  | .ok [] =>
      .ok { uploaded := some false, indexed := none, annotated := none,
            sample_index := none, file_path := none, sample_ids := none }
  | .ok [f] =>
      let up := f.fileStatus == "READY"
      .ok { uploaded := some up
            indexed := some (f.indexStatus == "READY")
            annotated := some (f.annotationStatus == "READY")
            sample_index := some (f.secondaryIndexStatus == "READY")
            file_path := if up then some f.path else none
            sample_ids := if up then some f.sampleIds else none }
  | .ok (_ :: _ :: _) => .error 1

/-- Result of one attempt of the inner run_index closure of index_file: the
execution status string of the finished job, or a ValueError raised while
submitting or waiting. -/
inductive JobResult where
  | status (s : String)
  | raisesValueError
  deriving Repr, DecidableEq

/-- The retry variable of index_file (opencga_functions.py line 224). -/
def retry : Nat := 3

/-- The retry loop of index_file (opencga_functions.py lines 239 to 257),
parameterised by the outcome of each attempt.  fuel counts remaining
iterations, k counts attempts already made.  Returns the value of the Python
success variable (None or True; never False) together with the number of
run_index invocations.  A ValueError ends the process: the except handler
calls sys.exit(1) (on the first attempt the handler itself raises an
uncaught NameError on the unbound status variable; either way the process
terminates abnormally, modelled as Except.error 1). -/
def index_attempts (job : Nat → JobResult) : Nat → Nat → Except Nat (Option Bool) × Nat
  | 0, k => (.ok none, k)
  | fuel + 1, k =>
      match job k with
      | .raisesValueError => (.error 1, k + 1)
      | .status s =>
          if s == "DONE" then (.ok (some true), k + 1)
          else index_attempts job fuel (k + 1)

/-- index_file (opencga_functions.py lines 216 to 257): run the retry loop
with the initial success = None and up to retry attempts. -/
def index_file (job : Nat → JobResult) : Except Nat (Option Bool) × Nat :=
  index_attempts job retry 0

/-- Whether the first list of characters occurs at the head of the second. -/
def charsStartWith : List Char → List Char → Bool
  | [], _ => true
  | _ :: _, [] => false
  | a :: as, b :: bs => a == b && charsStartWith as bs

/-- Whether the first list of characters occurs anywhere in the second. -/
def charsContain (pat : List Char) : List Char → Bool
  | [] => pat.isEmpty
  | c :: cs => charsStartWith pat (c :: cs) || charsContain pat cs

/-- The Python membership test ("ERROR" in stderr) used by upload_file:
true when the string contains the substring "ERROR". -/
def containsERROR (s : String) : Bool := charsContain "ERROR".data s.data

/-- External outcomes consumed by upload_file: the stderr text of the CLI
upload subprocess and whether the oc.files.update call raises. -/
structure UploadEnv where
  cliStderr : String
  updateFails : Bool
  deriving Repr, DecidableEq

/-- What upload_file leaves behind when it returns normally. -/
structure UploadResult where
  uploadedToPlatform : Bool
  attributesAttached : Bool
  attachFailureLogged : Bool
  deriving Repr, DecidableEq

/-- upload_file (opencga_functions.py lines 184 to 214): the CLI upload is
run and awaited; if its stderr contains "ERROR" the process exits with
sys.exit(1).  Otherwise success is logged and oc.files.update is attempted
inside try/except: a raised exception is caught, an error is logged, and the
function returns normally, with the upload kept. -/
def upload_file (env : UploadEnv) : Except Nat UploadResult :=
  if containsERROR env.cliStderr then .error 1
  else .ok { uploadedToPlatform := true
             attributesAttached := !env.updateFails
             attachFailureLogged := env.updateFails }

/-- External outcomes consumed by one submitted-and-awaited job (variant
stats, annotate, secondary index): the execution status string reported by
oc.jobs.info, and whether wait_for_job or jobs.info raises a ValueError. -/
structure JobEnv where
  statusName : String
  waitRaises : Bool
  deriving Repr, DecidableEq

/-- variant_stats_index (opencga_functions.py lines 260 to 284): submits the
stats job unconditionally, then waits; a ValueError runs sys.exit(1); a
non-DONE terminal status is only logged and the function returns normally. -/
def variant_stats_index (j : JobEnv) : Except Nat Unit :=
  if j.waitRaises then .error 1 else .ok ()

/-- annotate_variants (opencga_functions.py lines 287 to 312).  The delay
parameter (and any knowledge of an already pending job, modelled by the
pendingJob argument) is never read by the function body: the annotation job
is submitted unconditionally on the first line, then awaited.  The second
component counts new jobs submitted by the call, which is always 1.  A
ValueError while waiting runs sys.exit(1); a non-DONE terminal status is
only logged. -/
def annotate_variants (delay : Bool) (pendingJob : Bool) (j : JobEnv) :
    Except Nat Unit × Nat :=
  ((if j.waitRaises then .error 1 else .ok ()), 1)

/-- secondary_annotation_index (opencga_functions.py lines 315 to 338): same
shape as annotate_variants, with the same unused delay parameter, an
unconditional submission, and sys.exit(1) on ValueError. -/
def secondary_annotation_index (delay : Bool) (pendingJob : Bool) (j : JobEnv) :
    Except Nat Unit × Nat :=
  ((if j.waitRaises then .error 1 else .ok ()), 1)

/-- One external mutating call issued while advancing a file: the CLI upload,
the k-th run_index submission, the variant-stats submission, an annotation
submission, or a secondary-annotation-index submission. -/
inductive MutCall where
  | uploadC
  | indexC (attempt : Nat)
  | statsC
  | annotC
  | secondaryC
  deriving Repr, DecidableEq

/-- Everything external that one run of the per-file pipeline
(opencga_upload_and_index.py lines 302 to 360) can observe: the search
response for this (study, file name) pair, the upload CLI and attribute
update outcomes, the outcome of each index attempt, the stats job, whether a
PENDING annotation job for the study already exists at probe time (never
consulted by the code), and the two annotation and two secondary-index job
outcomes reached by the duplicated blocks. -/
structure Env where
  search : SearchResult
  upload : UploadEnv
  indexJob : Nat → JobResult
  statsJob : JobEnv
  pendingAnnotJob : Bool
  annotJob1 : JobEnv
  annotJob2 : JobEnv
  secJob1 : JobEnv
  secJob2 : JobEnv

/-- Sequencing of pipeline steps with trace accumulation: if the first step
exited the process, later steps never run; otherwise traces concatenate. -/
def andThen (a : Except Nat Unit × List MutCall)
    (b : Unit → Except Nat Unit × List MutCall) :
    Except Nat Unit × List MutCall :=
  match a with
  | (.error c, t) => (.error c, t)
  | (.ok _, t) => ((b ()).1, t ++ (b ()).2)

/-- The UPLOAD block (opencga_upload_and_index.py lines 309 to 316): skipped
when the uploaded flag is truthy, otherwise upload_file runs (one CLI upload
call) and a failure exits the process. -/
def uploadStep (env : Env) (c : FileChecks) : Except Nat Unit × List MutCall :=
  if isTruthy c.uploaded then (.ok (), [])
  else
    match upload_file env.upload with
    | .error code => (.error code, [.uploadC])
    | .ok _ => (.ok (), [.uploadC])

/-- The INDEXING block (opencga_upload_and_index.py lines 318 to 324):
skipped when the indexed flag is truthy, otherwise index_file runs, issuing
one run_index submission per attempt.  The value returned by index_file is
discarded by the caller: whether it is True or None, control continues. -/
def indexStep (env : Env) (c : FileChecks) : Except Nat Unit × List MutCall :=
  if isTruthy c.indexed then (.ok (), [])
  else
    match index_file env.indexJob with
    | (.error code, n) => (.error code, (List.range n).map MutCall.indexC)
    | (.ok _, n) => (.ok (), (List.range n).map MutCall.indexC)

/-- The variant-stats launch (opencga_upload_and_index.py lines 328 to 330):
unconditional, with no gating on any probed flag.  The submission happens
before the wait, so the mutating call is recorded even when the wait then
exits the process. -/
def statsStep (env : Env) : Except Nat Unit × List MutCall :=
  (variant_stats_index env.statsJob, [.statsC])

/-- One ANNOTATION block (opencga_upload_and_index.py lines 333 to 339,
duplicated verbatim at lines 340 to 346): skipped when the annotated flag is
truthy, otherwise annotate_variants runs with the default delay = True. -/
def annotOnce (env : Env) (c : FileChecks) (j : JobEnv) :
    Except Nat Unit × List MutCall :=
  if isTruthy c.annotated then (.ok (), [])
  else ((annotate_variants true env.pendingAnnotJob j).1, [.annotC])

/-- Both copies of the ANNOTATION block in sequence. -/
def annotStep (env : Env) (c : FileChecks) : Except Nat Unit × List MutCall :=
  andThen (annotOnce env c env.annotJob1) (fun _ => annotOnce env c env.annotJob2)

/-- The SECONDARY ANNOTATION INDEX calls (opencga_upload_and_index.py lines
357 to 360): unconditional and duplicated, so two submissions in sequence. -/
def secStep (env : Env) : Except Nat Unit × List MutCall :=
  andThen ((secondary_annotation_index true env.pendingAnnotJob env.secJob1).1, [.secondaryC])
    (fun _ => ((secondary_annotation_index true env.pendingAnnotJob env.secJob2).1, [.secondaryC]))

/-- The five blocks of the per-file pipeline in program order, given the
flags of the initial probe. -/
def pipelineSteps (env : Env) (c : FileChecks) : Except Nat Unit × List MutCall :=
  andThen (uploadStep env c) (fun _ =>
    andThen (indexStep env c) (fun _ =>
      andThen (statsStep env) (fun _ =>
        andThen (annotStep env c) (fun _ =>
          secStep env))))

/-- One pass of the per-file pipeline core (opencga_upload_and_index.py
lines 302 to 360) for a file processed without metadata: probe with
check_file_status, then the upload, index, stats, double annotation and
double secondary-index blocks in program order.  Returns the probed checks
on normal completion (there is no re-probe on this path; the only re-probe
in the script sits inside the metadata-only block at lines 371 onward,
which is outside the reconciliation core), paired with the list of external
mutating calls issued, in order. -/
def advance (env : Env) : Except Nat FileChecks × List MutCall :=
  match check_file_status env.search with
  | .error code => (.error code, [])
  | .ok c =>
      ((pipelineSteps env c).1.map (fun _ => c), (pipelineSteps env c).2)

/-- Independent pipeline runs, one per file, each a pure function of its own
environment (separate coordinator instances in the sense of the spec). -/
def independentRuns (envs : List Env) : List (Except Nat FileChecks × List MutCall) :=
  envs.map advance

/-! Concrete fixtures used to evaluate the pipeline on explicit inputs. -/

/-- The FileChecks record produced by a zero-match probe. -/
def absentChecks : FileChecks :=
  { uploaded := some false, indexed := none, annotated := none,
    sample_index := none, file_path := none, sample_ids := none }

/-- A fully processed platform record: every status READY. -/
def fileAllReady : PlatformFile :=
  { fileStatus := "READY", indexStatus := "READY", annotationStatus := "READY",
    secondaryIndexStatus := "READY", path := "data/202403/sample1.vcf",
    sampleIds := ["sample1"] }

/-- The FileChecks record produced by probing fileAllReady. -/
def allReadyChecks : FileChecks :=
  { uploaded := some true, indexed := some true, annotated := some true,
    sample_index := some true, file_path := some "data/202403/sample1.vcf",
    sample_ids := some ["sample1"] }

/-- A benign job outcome: terminal DONE, no exception. -/
def jobDone : JobEnv := { statusName := "DONE", waitRaises := false }

/-- Environment for a file whose probe reports all four stages READY and
whose platform behaves (no exceptions, every job DONE). -/
def envAllReady : Env :=
  { search := .ok [fileAllReady]
    upload := { cliStderr := "", updateFails := false }
    indexJob := fun _ => .status "DONE"
    statsJob := jobDone
    pendingAnnotJob := false
    annotJob1 := jobDone, annotJob2 := jobDone
    secJob1 := jobDone, secJob2 := jobDone }

/-- A platform record whose top-level status is not READY while the nested
variant-index status is READY. -/
def filePendingIndexed : PlatformFile :=
  { fileStatus := "STAGE", indexStatus := "READY", annotationStatus := "NONE",
    secondaryIndexStatus := "NONE", path := "data/202403/sample3.vcf",
    sampleIds := ["sample3"] }

/-- The FileChecks record produced by probing filePendingIndexed. -/
def pendingIndexedChecks : FileChecks :=
  { uploaded := some false, indexed := some true, annotated := some false,
    sample_index := some false, file_path := none, sample_ids := none }

/-- An uploaded but not yet indexed, annotated or secondary-indexed record. -/
def fileUploadedOnly : PlatformFile :=
  { fileStatus := "READY", indexStatus := "NONE", annotationStatus := "NONE",
    secondaryIndexStatus := "NONE", path := "data/202403/sample2.vcf",
    sampleIds := ["sample2"] }

/-- The FileChecks record produced by probing fileUploadedOnly. -/
def uploadedOnlyChecks : FileChecks :=
  { uploaded := some true, indexed := some false, annotated := some false,
    sample_index := some false, file_path := some "data/202403/sample2.vcf",
    sample_ids := some ["sample2"] }

/-- Environment for an uploaded file whose index job terminates with ERROR on
every attempt, while the remaining jobs behave. -/
def envIndexAlwaysError : Env :=
  { search := .ok [fileUploadedOnly]
    upload := { cliStderr := "", updateFails := false }
    indexJob := fun _ => .status "ERROR"
    statsJob := jobDone
    pendingAnnotJob := false
    annotJob1 := jobDone, annotJob2 := jobDone
    secJob1 := jobDone, secJob2 := jobDone }

/-- An indexed record still needing annotation and secondary indexing. -/
def fileNeedsAnnotA : PlatformFile :=
  { fileStatus := "READY", indexStatus := "READY", annotationStatus := "NONE",
    secondaryIndexStatus := "NONE", path := "data/202403/sampleA.vcf",
    sampleIds := ["sampleA"] }

/-- A second such record in the same study. -/
def fileNeedsAnnotB : PlatformFile :=
  { fileStatus := "READY", indexStatus := "READY", annotationStatus := "NONE",
    secondaryIndexStatus := "NONE", path := "data/202403/sampleB.vcf",
    sampleIds := ["sampleB"] }

/-- Environment for the first file needing annotation, with a PENDING
annotation job for the study already present at probe time. -/
def envNeedsAnnotA : Env :=
  { search := .ok [fileNeedsAnnotA]
    upload := { cliStderr := "", updateFails := false }
    indexJob := fun _ => .status "DONE"
    statsJob := jobDone
    pendingAnnotJob := true
    annotJob1 := jobDone, annotJob2 := jobDone
    secJob1 := jobDone, secJob2 := jobDone }

/-- Environment for the second file needing annotation in the same study,
with the same PENDING annotation job present. -/
def envNeedsAnnotB : Env :=
  { search := .ok [fileNeedsAnnotB]
    upload := { cliStderr := "", updateFails := false }
    indexJob := fun _ => .status "DONE"
    statsJob := jobDone
    pendingAnnotJob := true
    annotJob1 := jobDone, annotJob2 := jobDone
    secJob1 := jobDone, secJob2 := jobDone }

/-- Environment whose probe raises a transport failure. -/
def envTransportErr : Env :=
  { search := SearchResult.err
    upload := { cliStderr := "", updateFails := false }
    indexJob := fun _ => .status "DONE"
    statsJob := jobDone
    pendingAnnotJob := false
    annotJob1 := jobDone, annotJob2 := jobDone
    secJob1 := jobDone, secJob2 := jobDone }

end OpencgaUpload

namespace OpencgaUpload

example : check_file_status (.ok []) = .ok absentChecks := rfl

example : index_file (fun _ => .status "ERROR") = (.ok none, 3) := rfl

example : index_file (fun _ => .status "DONE") = (.ok (some true), 1) := rfl

example : index_file (fun k => if k == 0 then .status "ERROR" else .status "DONE") =
    (.ok (some true), 2) := rfl

example : (advance envAllReady).2 = [.statsC, .secondaryC, .secondaryC] := rfl

/-! Helper lemmas about the index retry loop. -/

theorem index_attempts_count_le (job : Nat → JobResult) :
    ∀ fuel k, (index_attempts job fuel k).2 ≤ k + fuel := by
  intro fuel
  induction fuel with
  | zero => intro k; simp [index_attempts]
  | succ n ih =>
      intro k
      simp only [index_attempts]
      cases job k with
      | raisesValueError => simp
      | status s =>
          by_cases hs : (s == "DONE") = true
          · simp [hs]
          · simp only [hs, if_false, Bool.false_eq_true]
            have := ih (k + 1)
            omega

theorem index_attempts_count_ge (job : Nat → JobResult) :
    ∀ fuel k, k ≤ (index_attempts job fuel k).2 := by
  intro fuel
  induction fuel with
  | zero => intro k; simp [index_attempts]
  | succ n ih =>
      intro k
      simp only [index_attempts]
      cases job k with
      | raisesValueError => simp
      | status s =>
          by_cases hs : (s == "DONE") = true
          · simp [hs]
          · simp only [hs, if_false, Bool.false_eq_true]
            have := ih (k + 1)
            omega

theorem index_attempts_all_error (job : Nat → JobResult) :
    ∀ fuel k, (∀ i, k ≤ i → i < k + fuel → ∃ s, job i = .status s ∧ s ≠ "DONE") →
      index_attempts job fuel k = (.ok none, k + fuel) := by
  intro fuel
  induction fuel with
  | zero => intro k _; simp [index_attempts]
  | succ n ih =>
      intro k h
      obtain ⟨s, hjob, hs⟩ := h k (Nat.le_refl k) (by omega)
      have hbeq : (s == "DONE") = false := by simp [hs]
      simp only [index_attempts, hjob, hbeq, Bool.false_eq_true, if_false]
      have := ih (k + 1) (fun i h1 h2 => h i (by omega) (by omega))
      rw [this]
      congr 1
      omega

theorem index_attempts_never_false (job : Nat → JobResult) :
    ∀ fuel k, (index_attempts job fuel k).1 ≠ Except.ok (some false) := by
  intro fuel
  induction fuel with
  | zero => intro k; simp [index_attempts]
  | succ n ih =>
      intro k
      simp only [index_attempts]
      cases job k with
      | raisesValueError => simp
      | status s =>
          by_cases hs : (s == "DONE") = true
          · simp [hs]
          · simp only [hs, if_false, Bool.false_eq_true]
            exact ih (k + 1)

theorem index_attempts_true_iff (job : Nat → JobResult) :
    ∀ fuel k, ((index_attempts job fuel k).1 = Except.ok (some true) ↔
      ∃ i, k ≤ i ∧ i < (index_attempts job fuel k).2 ∧ job i = .status "DONE") := by
  intro fuel
  induction fuel with
  | zero =>
      intro k
      simp only [index_attempts]
      constructor
      · intro h; exact absurd h (by simp)
      · rintro ⟨i, h1, h2, _⟩; omega
  | succ n ih =>
      intro k
      simp only [index_attempts]
      cases hj : job k with
      | raisesValueError =>
          simp only []
          constructor
          · intro h; exact absurd h (by simp)
          · rintro ⟨i, h1, h2, h3⟩
            have : i = k := by omega
            subst this
            rw [hj] at h3
            cases h3
      | status s =>
          by_cases hs : (s == "DONE") = true
          · have hsd : s = "DONE" := eq_of_beq hs
            subst hsd
            simp only [hs, if_true]
            constructor
            · intro _; exact ⟨k, Nat.le_refl k, by omega, hj⟩
            · intro _; trivial
          · simp only [hs, Bool.false_eq_true, if_false]
            rw [ih (k + 1)]
            constructor
            · rintro ⟨i, h1, h2, h3⟩; exact ⟨i, by omega, h2, h3⟩
            · rintro ⟨i, h1, h2, h3⟩
              rcases Nat.eq_or_lt_of_le h1 with heq | hlt
              · exfalso
                subst heq
                rw [hj] at h3
                injection h3 with hcontr
                subst hcontr
                simp at hs
              · exact ⟨i, by omega, h2, h3⟩

/-! Helper lemmas about step sequencing in the coordinator. -/

theorem andThen_snd_of_ok {a : Except Nat Unit × List MutCall}
    {b : Unit → Except Nat Unit × List MutCall} (h : a.1 = Except.ok ()) :
    (andThen a b).2 = a.2 ++ (b ()).2 := by
  obtain ⟨r, t⟩ := a
  simp only at h
  subst h
  rfl

theorem mem_andThen_elim {x : MutCall} {a : Except Nat Unit × List MutCall}
    {b : Unit → Except Nat Unit × List MutCall} (hx : x ∈ (andThen a b).2) :
    x ∈ a.2 ∨ (a.1 = Except.ok () ∧ x ∈ (b ()).2) := by
  obtain ⟨r, t⟩ := a
  cases r with
  | error code => exact Or.inl hx
  | ok u =>
      cases u
      simp only [andThen, List.mem_append] at hx
      rcases hx with h | h
      · exact Or.inl h
      · exact Or.inr ⟨rfl, h⟩

theorem mem_andThen_left {x : MutCall} {a : Except Nat Unit × List MutCall}
    {b : Unit → Except Nat Unit × List MutCall} (hx : x ∈ a.2) :
    x ∈ (andThen a b).2 := by
  obtain ⟨r, t⟩ := a
  cases r with
  | error code => exact hx
  | ok u => cases u; simpa [andThen] using Or.inl hx

/-! Claim theorems. -/

/-- C3: for an index stage whose submitted job always terminates with a
non-DONE status, index_file invokes run_index exactly retry (= 3) times and
then reports a non-success (the Python success variable is still None), and
no run of index_file ever invokes run_index more than retry times. -/
theorem c3_retry_bound (job : Nat → JobResult)
    (h : ∀ i, i < retry → ∃ s, job i = JobResult.status s ∧ s ≠ "DONE") :
    index_file job = (Except.ok none, retry) ∧
      ∀ j : Nat → JobResult, (index_file j).2 ≤ retry := by
  constructor
  · have := index_attempts_all_error job retry 0 (fun i h1 h2 => h i (by omega))
    simpa [index_file] using this
  · intro j
    have := index_attempts_count_le j retry 0
    simpa [index_file] using this

theorem c3_witness : index_file (fun _ => JobResult.status "ERROR") = (Except.ok none, retry) :=
  (c3_retry_bound (fun _ => JobResult.status "ERROR")
    (fun _ _ => ⟨"ERROR", rfl, by decide⟩)).1

/-- C6: probing a (study, fileName) pair with zero matching files yields a
FileRecord whose four stage flags all report the absent state: uploaded is
set to False and the index, annotated and sample-index flags stay None, so
every flag is falsy (not-uploaded, not-indexed, not-annotated, no sample
index). -/
theorem c6_zero_matches_absent :
    check_file_status (SearchResult.ok []) = Except.ok absentChecks ∧
    isTruthy absentChecks.uploaded = false ∧
    isTruthy absentChecks.indexed = false ∧
    isTruthy absentChecks.annotated = false ∧
    isTruthy absentChecks.sample_index = false :=
  ⟨rfl, rfl, rfl, rfl, rfl⟩

/-- C7 counterexample: a single matching record whose top-level status is
STAGE (not READY) but whose variant-index status is READY makes the prober
return uploaded falsy together with indexed = READY, so a dependent stage is
reported READY although upload is not READY, contradicting the claimed
collapse to ABSENT. -/
theorem c7_counterexample :
    check_file_status (SearchResult.ok [filePendingIndexed]) =
      Except.ok pendingIndexedChecks ∧
    isTruthy pendingIndexedChecks.uploaded = false ∧
    isTruthy pendingIndexedChecks.indexed = true :=
  ⟨rfl, rfl, rfl⟩

/-- C7 amended: for a single-match probe each dependent stage flag is
computed solely from that stage's own platform status string, independently
of the top-level status; no collapse to ABSENT happens when the top-level
status is not READY. -/
theorem c7_flags_independent (f : PlatformFile) (c : FileChecks)
    (h : check_file_status (SearchResult.ok [f]) = Except.ok c) :
    c.indexed = some (f.indexStatus == "READY") ∧
    c.annotated = some (f.annotationStatus == "READY") ∧
    c.sample_index = some (f.secondaryIndexStatus == "READY") := by
  simp only [check_file_status, Except.ok.injEq] at h
  subst h
  exact ⟨rfl, rfl, rfl⟩

theorem c7_witness :
    pendingIndexedChecks.indexed = some (filePendingIndexed.indexStatus == "READY") ∧
    pendingIndexedChecks.annotated = some (filePendingIndexed.annotationStatus == "READY") ∧
    pendingIndexedChecks.sample_index = some (filePendingIndexed.secondaryIndexStatus == "READY") :=
  c7_flags_independent filePendingIndexed pendingIndexedChecks rfl

/-- C9: when the CLI upload succeeds (no ERROR in its stderr) but the
attribute-attachment call oc.files.update fails, upload_file still returns
normally: the failure is logged, the file stays uploaded, and no rollback
happens (the only effect of the failure is attributesAttached = false). -/
theorem c9_attach_failure_no_rollback (env : UploadEnv)
    (hcli : containsERROR env.cliStderr = false) (hupd : env.updateFails = true) :
    upload_file env =
      Except.ok { uploadedToPlatform := true, attributesAttached := false,
                  attachFailureLogged := true } := by
  simp [upload_file, hcli, hupd]

theorem c9_witness :
    upload_file { cliStderr := "", updateFails := true } =
      Except.ok { uploadedToPlatform := true, attributesAttached := false,
                  attachFailureLogged := true } :=
  c9_attach_failure_no_rollback { cliStderr := "", updateFails := true } (by decide) rfl

/-- C10: the value index_file returns is True exactly when one of the
attempts it made reported DONE; it is never False; and when every possible
attempt reports a non-DONE status the returned value is None, so a caller
cannot distinguish exhausted retries from an absent result by a boolean
check. -/
theorem c10_none_never_false (job : Nat → JobResult) :
    ((index_file job).1 = Except.ok (some true) ↔
      ∃ i, i < (index_file job).2 ∧ job i = JobResult.status "DONE") ∧
    (index_file job).1 ≠ Except.ok (some false) ∧
    ((∀ i, i < retry → ∃ s, job i = JobResult.status s ∧ s ≠ "DONE") →
      (index_file job).1 = Except.ok none) := by
  refine ⟨?_, ?_, ?_⟩
  · have := index_attempts_true_iff job retry 0
    simpa [index_file] using this
  · have := index_attempts_never_false job retry 0
    simpa [index_file] using this
  · intro h
    have := index_attempts_all_error job retry 0 (fun i h1 h2 => h i (by omega))
    simp [index_file, this]

theorem c10_witness :
    (index_file (fun _ => JobResult.status "DONE")).1 = Except.ok (some true) :=
  ((c10_none_never_false (fun _ => JobResult.status "DONE")).1).mpr
    ⟨0, by decide, rfl⟩

/-- C5 counterexample: with delay mode on and a PENDING annotation job for
the study already present at probe time, advancing two files of the same
study that both require annotation submits two new annotation jobs per file
(the duplicated ANNOTATION block), four in total, and already a single
annotate_variants call with delay and a pending job submits one new job
instead of attaching to the existing one; the claimed bound of at most one
new job across both advance calls fails. -/
theorem c5_counterexample :
    ((advance envNeedsAnnotA).2.count MutCall.annotC = 2) ∧
    ((advance envNeedsAnnotB).2.count MutCall.annotC = 2) ∧
    ¬((advance envNeedsAnnotA).2.count MutCall.annotC +
        (advance envNeedsAnnotB).2.count MutCall.annotC ≤ 1) ∧
    (annotate_variants true true jobDone).2 = 1 ∧
    ¬((annotate_variants true true jobDone).2 = 0) := by
  refine ⟨by decide, by decide, by decide, rfl, by decide⟩

/-- C5 amended: the delay parameter of annotate_variants and
secondary_annotation_index is accepted but never consulted, and no check for
an already pending job is performed: every call submits exactly one new job,
and the entire result is independent of the delay flag and of whether a
PENDING job exists, so two files of the same study that both require
annotation lead to one new annotation job per annotate_variants call rather
than a coalesced single job. -/
theorem c5_delay_ignored (d d2 p p2 : Bool) (j : JobEnv) :
    (annotate_variants d p j).2 = 1 ∧
    annotate_variants d p j = annotate_variants d2 p2 j ∧
    (secondary_annotation_index d p j).2 = 1 ∧
    secondary_annotation_index d p j = secondary_annotation_index d2 p2 j :=
  ⟨rfl, rfl, rfl, rfl⟩

/-- C8: both read-path errors of the prober are fatal for the current file,
and files processed by independent runs are unaffected: an ambiguous match
(more than one file with the name in the study) and a transport failure of
the search both run sys.exit(1), and the outcome of one entry of a batch of
independent pipeline runs depends only on that entry's own environment. -/
theorem c8_read_errors_fatal (f g : PlatformFile) (rest : List PlatformFile)
    (es es2 : List Env) (i : Nat) (hsame : es[i]? = es2[i]?) :
    check_file_status (SearchResult.ok (f :: g :: rest)) = Except.error 1 ∧
    check_file_status SearchResult.err = Except.error 1 ∧
    (independentRuns es)[i]? = (independentRuns es2)[i]? := by
  refine ⟨rfl, rfl, ?_⟩
  simp [independentRuns, List.getElem?_map, hsame]

theorem c8_witness :
    (independentRuns [envAllReady, envTransportErr])[0]? =
      (independentRuns [envAllReady, envAllReady])[0]? :=
  (c8_read_errors_fatal fileAllReady fileAllReady []
    [envAllReady, envTransportErr] [envAllReady, envAllReady] 0 rfl).2.2

/-- C1 counterexample: for a file whose probe reports all four stages READY,
the advance pass still issues three external mutating calls — the
unconditional variant-stats submission and the two unconditional
secondary-annotation-index submissions — so the claimed zero mutating calls
fails, although the pass does return the probed state unchanged. -/
theorem c1_counterexample :
    check_file_status envAllReady.search = Except.ok allReadyChecks ∧
    isTruthy allReadyChecks.uploaded = true ∧
    isTruthy allReadyChecks.indexed = true ∧
    isTruthy allReadyChecks.annotated = true ∧
    isTruthy allReadyChecks.sample_index = true ∧
    (advance envAllReady).2 =
      [MutCall.statsC, MutCall.secondaryC, MutCall.secondaryC] ∧
    ¬((advance envAllReady).2 = []) ∧
    (advance envAllReady).1 = Except.ok allReadyChecks :=
  ⟨rfl, rfl, rfl, rfl, rfl, rfl, by decide, rfl⟩

/-- C1 amended: for a file whose probe reports upload, index and annotation
READY, the advance pass issues no upload call, no index-job submission and
no annotation submission — every mutating call it makes is the variant-stats
submission or a secondary-index submission — but it always makes the
variant-stats submission, so the pass is not free of mutating calls. -/
theorem c1_amended (env : Env) (c : FileChecks)
    (h : check_file_status env.search = Except.ok c)
    (hu : isTruthy c.uploaded = true) (hi : isTruthy c.indexed = true)
    (ha : isTruthy c.annotated = true) :
    (∀ x ∈ (advance env).2, x = MutCall.statsC ∨ x = MutCall.secondaryC) ∧
    MutCall.statsC ∈ (advance env).2 := by
  have hup : uploadStep env c = (.ok (), []) := by simp [uploadStep, hu]
  have hix : indexStep env c = (.ok (), []) := by simp [indexStep, hi]
  have han : annotStep env c = (.ok (), []) := by
    simp [annotStep, annotOnce, ha, andThen]
  have htr : (advance env).2 = (pipelineSteps env c).2 := by simp [advance, h]
  rw [htr]
  cases hstats : env.statsJob.waitRaises <;>
    cases hs1 : env.secJob1.waitRaises <;>
      simp [pipelineSteps, hup, hix, han, andThen, statsStep, secStep,
            variant_stats_index, secondary_annotation_index, hstats, hs1]

theorem c1_witness : MutCall.statsC ∈ (advance envAllReady).2 :=
  (c1_amended envAllReady allReadyChecks rfl rfl rfl rfl).2

/-- C2 counterexample: for an uploaded file whose probed index and
annotation flags are falsy and whose index job terminates ERROR on every
attempt (so the index stage never reaches READY and index_file reports no
success), the advance pass still invokes the annotation stage and the
secondary-index stage, refuting that annotation is never invoked while the
index status is not READY and that secondaryIndex is never invoked while
the annotation status is not READY. -/
theorem c2_counterexample :
    check_file_status envIndexAlwaysError.search = Except.ok uploadedOnlyChecks ∧
    isTruthy uploadedOnlyChecks.indexed = false ∧
    isTruthy uploadedOnlyChecks.annotated = false ∧
    envIndexAlwaysError.indexJob 0 = JobResult.status "ERROR" ∧
    envIndexAlwaysError.indexJob 1 = JobResult.status "ERROR" ∧
    envIndexAlwaysError.indexJob 2 = JobResult.status "ERROR" ∧
    (index_file envIndexAlwaysError.indexJob).1 = Except.ok none ∧
    MutCall.annotC ∈ (advance envIndexAlwaysError).2 ∧
    MutCall.secondaryC ∈ (advance envIndexAlwaysError).2 :=
  ⟨rfl, rfl, rfl, rfl, rfl, rfl, rfl, by decide, by decide⟩

/-- C2 amended: the first conjunct of the ordering claim holds — the index
stage is invoked only when the probe reported upload READY or the upload
stage completed without a CLI error (upload failure exits the process before
any index submission) — while the annotation and secondary-index conjuncts
fail on the code (see the counterexample). -/
theorem c2_index_after_upload (env : Env) (c : FileChecks) (k : Nat)
    (h : check_file_status env.search = Except.ok c)
    (hk : MutCall.indexC k ∈ (advance env).2) :
    isTruthy c.uploaded = true ∨ containsERROR env.upload.cliStderr = false := by
  have htr : (advance env).2 = (pipelineSteps env c).2 := by simp [advance, h]
  rw [htr] at hk
  by_cases hu : isTruthy c.uploaded = true
  · exact Or.inl hu
  · right
    have hu2 : isTruthy c.uploaded = false := by
      cases hb : isTruthy c.uploaded
      · rfl
      · exact absurd hb hu
    by_cases hcli : containsERROR env.upload.cliStderr = true
    · exfalso
      have hupl : uploadStep env c = (.error 1, [MutCall.uploadC]) := by
        simp [uploadStep, hu2, upload_file, hcli]
      simp [pipelineSteps, hupl, andThen] at hk
    · cases hb : containsERROR env.upload.cliStderr
      · rfl
      · exact absurd hb hcli

theorem c2_witness :
    isTruthy uploadedOnlyChecks.uploaded = true ∨
      containsERROR envIndexAlwaysError.upload.cliStderr = false :=
  c2_index_after_upload envIndexAlwaysError uploadedOnlyChecks 0 rfl (by decide)

/-- C4 (evaluation at the failing input): for an uploaded file whose index
job terminates ERROR on all three attempts, index_file reports no success
(it returns None after exactly three attempts), yet the coordinator, which
discards that return value, still submits the variant-stats job, two
annotation jobs and two secondary-index jobs, and completes with a normal
non-error result carrying only the stale probe flags — indistinguishable in
kind from a fully successful pass. -/
theorem c4_downstream_runs_after_exhaustion :
    index_file envIndexAlwaysError.indexJob = (Except.ok none, 3) ∧
    (advance envIndexAlwaysError).2 =
      [MutCall.indexC 0, MutCall.indexC 1, MutCall.indexC 2, MutCall.statsC,
       MutCall.annotC, MutCall.annotC, MutCall.secondaryC, MutCall.secondaryC] ∧
    (advance envIndexAlwaysError).1 = Except.ok uploadedOnlyChecks :=
  ⟨rfl, rfl, rfl⟩

end OpencgaUpload
